import Mathlib

/-!
Shallow embedding of the contacts/auth backend (FastAPI + SQLAlchemy + jose JWT).

Conventions of the embedding:
* A database session is an explicit list of rows (`List User`, `List Contact`);
  mutating handlers return the post-commit store next to their result, and a
  rolled-back transaction returns the store unchanged.
* `datetime.utcnow()` is threaded as an explicit `now : Nat` (seconds for the
  token code); `datetime.today()` in the birthday query is a `Nat` day ordinal.
* A raised `fastapi.HTTPException` is an `Except.error` carrying status and
  detail; an exception that escapes the handler uncaught (Python `KeyError`,
  `AttributeError`) is modelled by `PyErr`.
-/

/-- fastapi.HTTPException as raised by the handlers: status code and detail
string (the `WWW-Authenticate` header some of them attach is not modelled). -/
structure HTTPException where
  status_code : Nat
  detail : String
deriving Repr, DecidableEq

/-- Python exceptions that can escape a handler: an explicit HTTPException, a
`KeyError` from a missing dict key, or an `AttributeError` from an attribute
access on `None`. -/
inductive PyErr where
  | http (e : HTTPException)
  | keyError (key : String)
  | attributeError (attr : String)
deriving Repr, DecidableEq

/-- Exceptions caught by the blanket `except Exception` in the contact
handlers; `str e` is interpolated into the 500 detail. -/
inductive PyExc where
  | httpExc (e : HTTPException)
  | integrityError
deriving Repr, DecidableEq

/-- Python `str(e)`: an HTTPException prints as `"<status>: <detail>"`. -/
def PyExc.str : PyExc → String
  | .httpExc e => toString e.status_code ++ ": " ++ e.detail
  | .integrityError => "IntegrityError"

/-- A decoded JWT payload. `sub` distinguishes a payload whose `"sub"` key is
absent (`none`), present but JSON null (`some none`), and present as a string
(`some (some s)`); `exp` is the expiry timestamp the repo always embeds. -/
structure Payload where
  sub : Option (Option String)
  exp : Nat
deriving Repr, DecidableEq

/-- A serialized JWT. Modelled from the spec: the jose library is a
third-party dependency, and spec section 3 says a token is a signed,
tamper-evident payload whose validity is determined by signature and expiry,
so a token is its payload together with the signing key and algorithm used. -/
structure Token where
  payload : Payload
  key : String
  alg : String
deriving Repr, DecidableEq

/-- Errors of jose `jwt.decode` (all are subclasses of `JWTError`). -/
inductive JWTError where
  | signatureError
  | expiredError
deriving Repr, DecidableEq

/-- jose `jwt.encode(payload, key, algorithm=alg)`. -/
def encode (payload : Payload) (key : String) (alg : String) : Token :=
  ⟨payload, key, alg⟩

/-- jose `jwt.decode(token, key, algorithms=algs)` at time `now`: rejects a
key mismatch or an algorithm outside the allowed list as a signature defect,
then rejects a reached expiry; otherwise returns the payload. -/
def decode (t : Token) (key : String) (algs : List String) (now : Nat) :
    Except JWTError Payload :=
  if t.key == key && algs.contains t.alg then
    if t.payload.exp ≤ now then .error .expiredError else .ok t.payload
  else .error .signatureError

/-- src/auth_files/auth_settings.py: `os.getenv("SECRET_KEY", "default secret")`. -/
def SECRET_KEY : String := "default secret"

/-- src/auth_files/auth_settings.py: `os.getenv("ALGORITHM")`, an
environment-configured constant; modelled as the conventional HS256. -/
def ALGORITHM : String := "HS256"

/-- src/routes/jwt.py. -/
def REFRESH_TOKEN_EXPIRE_DAYS : Nat := 7

/-- src/auth_files/auth_procedures.py and src/routes/routes.py. -/
def ACCESS_TOKEN_EXPIRE_MINUTES : Nat := 20

/-- The `data` dict passed to the token constructors; at every call site it is
`a dict holding only the "sub" entry`. -/
structure TokenData where
  sub : Option (Option String)
deriving Repr, DecidableEq

/-- src/routes/jwt.py `create_access_token`: expiry is `now + expires_delta`
when a delta is given, else `now + 15 minutes`; signs with the server key. -/
def create_access_token (data : TokenData) (expires_delta : Option Nat)
    (now : Nat) : Token :=
  let expire := match expires_delta with
    | some d => now + d
    | none => now + 15 * 60
  encode ⟨data.sub, expire⟩ SECRET_KEY ALGORITHM

/-- src/routes/jwt.py `create_refresh_token`: expiry `now + 7 days`. -/
def create_refresh_token (data : TokenData) (now : Nat) : Token :=
  encode ⟨data.sub, now + REFRESH_TOKEN_EXPIRE_DAYS * 24 * 60 * 60⟩
    SECRET_KEY ALGORITHM

/-- The uniform rejection built by jwt.py and auth_procedures.py. -/
def credentials_exception : HTTPException :=
  ⟨401, "Invalid credentials"⟩

/-- src/routes/jwt.py `verify_token`: decodes with the server key and the
single allowed algorithm; any `JWTError` becomes the uniform 401; the payload
is returned as is, with no check of the subject claim. -/
def verify_token (token : Token) (now : Nat) : Except HTTPException Payload :=
  match decode token SECRET_KEY [ALGORITHM] now with
  | .ok payload => .ok payload
  | .error _ => .error credentials_exception

/-- A stored bcrypt digest. Modelled from the spec: passlib's CryptContext is
a third-party dependency not under src/, and src/db/models.py (the column
declaration) is absent; spec section 3 stores a one-way hash and section 4.1
requires `verify` to be a total boolean check. A digest is either a
well-formed bcrypt digest (salt plus the value bcrypt derives from the
plaintext, recorded here as the plaintext itself — one-wayness is not needed
by any claim) or a malformed string that no scheme recognises. -/
inductive Digest where
  | bcrypt (salt : Nat) (body : String)
  | malformed (raw : String)
deriving Repr, DecidableEq

/-- Modelled from the spec (section 4.1): `hash(plaintext)` with an explicit
salt — salted, so two salts give two different digests. -/
def get_password_hash (plain : String) (salt : Nat) : Digest :=
  .bcrypt salt plain

/-- Modelled from the spec (section 4.1): `verify(plaintext, digest)` redoes
the bcrypt computation with the digest's salt and compares; it returns false
(never raises) for any mismatch, including a malformed digest. -/
def verify_password (plain : String) : Digest → Bool
  | .bcrypt _salt body => body == plain
  | .malformed _ => false

/-- A User row. Modelled from the spec: src/db/models.py is absent from the
sources; spec section 3 gives id, email (unique), password (stored hash),
nullable refresh_token, the is_verified/confirmed boolean (one flag, which
the code reads as `is_verified` in auth_procedures.py and as `confirmed` in
auth.py/users.py; also as `hashed_password` vs `password` for the hash), and
a nullable avatar; username comes from the signup schema. -/
structure User where
  id : Nat
  username : String
  email : String
  password : Digest
  refresh_token : Option Token
  confirmed : Bool
  avatar : Option String
deriving Repr, DecidableEq

/-- src/auth_files/auth_procedures.py `get_user`: first row matching the
email, returned only when the password verifies against the stored hash. -/
def get_user (email password : String) (session : List User) : Option User :=
  match session.find? (fun u => u.email == email) with
  | some user =>
      if verify_password password user.password then some user else none
  | none => none

/-- src/repository/users.py `get_user_by_email`. -/
def get_user_by_email (email : String) (db : List User) : Option User :=
  db.find? (fun u => u.email == email)

/-- src/repository/users.py `update_token`: sets the row's refresh_token and
commits (row identity by primary key id). -/
def update_token (user : User) (token : Option Token) (db : List User) :
    List User :=
  db.map fun u =>
    if u.id == user.id then { u with refresh_token := token } else u

/-- src/repository/users.py `confirm_email`: loads by email and sets
`confirmed = True`; on a missing row the attribute assignment on `None`
raises AttributeError. -/
def confirm_email (email : String) (db : List User) :
    Except PyErr (List User) :=
  match get_user_by_email email db with
  | none => .error (.attributeError "confirmed")
  | some _ =>
      .ok (db.map fun u =>
        if u.email == email then { u with confirmed := true } else u)

/-- src/repository/users.py `update_avatar`. -/
def update_avatar (email : String) (url : String) (db : List User) :
    Except PyErr (List User) :=
  match get_user_by_email email db with
  | none => .error (.attributeError "avatar")
  | some _ =>
      .ok (db.map fun u =>
        if u.email == email then { u with avatar := some url } else u)

/-- src/routes/jwt.py `update_user_avatar`: by id, 404 when absent. -/
def update_user_avatar (user_id : Nat) (avatar_url : String)
    (db : List User) : Except HTTPException (List User) :=
  if db.any (fun u => u.id == user_id) then
    .ok (db.map fun u =>
      if u.id == user_id then { u with avatar := some avatar_url } else u)
  else .error ⟨404, "User not found"⟩

/-- Response of the token-pair handlers. -/
structure TokenPair where
  access_token : Token
  refresh_token : Token
  token_type : String
deriving Repr, DecidableEq

/-- Response of the refresh handler. -/
structure RefreshResponse where
  access_token : Token
  token_type : String
deriving Repr, DecidableEq

/-- src/auth_files/auth_procedures.py `login_for_access_token` (POST /token/):
one uniform 401 for a missing user or a failed password, else a fresh
access/refresh pair. -/
def login_for_access_token (username password : String) (db : List User)
    (now : Nat) : Except HTTPException TokenPair :=
  match get_user username password db with
  | none => .error credentials_exception
  | some user =>
      .ok ⟨create_access_token ⟨some (some user.email)⟩
             (some (ACCESS_TOKEN_EXPIRE_MINUTES * 60)) now,
           create_refresh_token ⟨some (some user.email)⟩ now,
           "bearer"⟩

/-- src/auth_files/auth_procedures.py `refresh_access_token`
(POST /token/refresh/): verifies the presented token, takes
`payload.get("sub")` (None both when the key is absent and when it is null),
rejects a missing subject with the uniform 401, and mints a new access token
for that subject. The function receives only the bearer token — no database
session — so no comparison against the stored refresh_token column occurs. -/
def refresh_access_token (current_token : Token) (now : Nat) :
    Except HTTPException RefreshResponse :=
  match verify_token current_token now with
  | .error e => .error e
  | .ok payload =>
      match payload.sub.join with
      | none => .error credentials_exception
      | some sub =>
          .ok ⟨create_access_token ⟨some (some sub)⟩
                 (some (ACCESS_TOKEN_EXPIRE_MINUTES * 60)) now,
               "bearer"⟩

/-- src/auth_files/auth_procedures.py `get_current_user`: decodes the token
(`except JWTError` → uniform 401), then reads `payload["sub"]` — a missing
key raises an uncaught KeyError; a null subject and a missing user row hit
the uniform 401. -/
def get_current_user (token : Token) (db : List User) (now : Nat) :
    Except PyErr User :=
  match decode token SECRET_KEY [ALGORITHM] now with
  | .error _ => .error (.http credentials_exception)
  | .ok payload =>
      match payload.sub with
      | none => .error (.keyError "sub")
      | some none => .error (.http credentials_exception)
      | some (some email) =>
          match db.find? (fun u => u.email == email) with
          | none => .error (.http credentials_exception)
          | some user => .ok user

/-- src/auth_files/auth_procedures.py `verify_user_email`: same decoding and
lookup as `get_current_user`; flips `is_verified` to true and commits only
when the flag is still false, else performs no write. Returns the success
message next to the post-commit store. -/
def verify_user_email (token : Token) (db : List User) (now : Nat) :
    Except PyErr (String × Nat) × List User :=
  match decode token SECRET_KEY [ALGORITHM] now with
  | .error _ => (.error (.http credentials_exception), db)
  | .ok payload =>
      match payload.sub with
      | none => (.error (.keyError "sub"), db)
      | some none => (.error (.http credentials_exception), db)
      | some (some email) =>
          match db.find? (fun u => u.email == email) with
          | none => (.error (.http credentials_exception), db)
          | some user =>
              if user.confirmed then
                (.ok ("Email verification successful!", 200), db)
              else
                (.ok ("Email verification successful!", 200),
                 db.map fun u =>
                   if u.email == email then { u with confirmed := true }
                   else u)

/-- src/services/email_token.py `EmailTokenManager.get_email_from_token`:
decodes with the manager's own secret/algorithm, mapping `JWTError` to a 422
with its own detail; `payload["sub"]` raises an uncaught KeyError when the
key is absent, and whatever value it holds (possibly null) is returned. -/
def get_email_from_token (secret alg : String) (token : Token) (now : Nat) :
    Except PyErr (Option String) :=
  match decode token secret [alg] now with
  | .error _ =>
      .error (.http ⟨422, "Invalid token for email verification"⟩)
  | .ok payload =>
      match payload.sub with
      | none => .error (.keyError "sub")
      | some v => .ok v

/-- src/routes/auth.py `login` (POST /login): distinct 401 details for an
unknown email, an unconfirmed email, and a wrong password; on success mints
an access token (default 15-minute expiry — no delta is passed) and a refresh
token, persists the refresh token through `update_token`, and returns the
pair. The injected `repository_users`/`auth_service` collaborators are bound
to the repository's own users module and token/hash helpers. -/
def login_auth (username password : String) (db : List User) (now : Nat) :
    Except HTTPException TokenPair × List User :=
  match get_user_by_email username db with
  | none => (.error ⟨401, "Invalid email"⟩, db)
  | some user =>
      if user.confirmed = false then
        (.error ⟨401, "Email not confirmed"⟩, db)
      else if verify_password password user.password = false then
        (.error ⟨401, "Invalid password"⟩, db)
      else
        let access_token := create_access_token ⟨some (some user.email)⟩ none now
        let refresh_token := create_refresh_token ⟨some (some user.email)⟩ now
        (.ok ⟨access_token, refresh_token, "bearer"⟩,
         update_token user (some refresh_token) db)

/-- src/routes/routes.py `login` (POST /login): the uniform 401 on any failed
credential check, else a fresh token pair — the minted refresh token is
returned but never written to the store (no `update_token` call). -/
def login_routes (username password : String) (db : List User) (now : Nat) :
    Except HTTPException TokenPair × List User :=
  match get_user username password db with
  | none => (.error credentials_exception, db)
  | some user =>
      (.ok ⟨create_access_token ⟨some (some user.email)⟩
              (some (ACCESS_TOKEN_EXPIRE_MINUTES * 60)) now,
            create_refresh_token ⟨some (some user.email)⟩ now,
            "bearer"⟩,
       db)

/-- Signup body (src/schemas.py `UserModel`). -/
structure UserModel where
  username : String
  email : String
  password : String
deriving Repr, DecidableEq

/-- src/routes/auth.py `signup` plus src/repository/users.py `create_user`:
409 on a duplicate email, else hash the password and append the new row
(fresh id, unconfirmed, avatar left out of the model's concerns). -/
def signup (body : UserModel) (salt : Nat) (new_id : Nat) (db : List User) :
    Except HTTPException User × List User :=
  match get_user_by_email body.email db with
  | some _ => (.error ⟨409, "Account already exists"⟩, db)
  | none =>
      let new_user : User :=
        ⟨new_id, body.username, body.email,
         get_password_hash body.password salt, none, false, none⟩
      (.ok new_user, db ++ [new_user])

/-- src/routes/auth.py `confirmed_email` (GET /confirmed_email/token):
extracts the email via the token manager (422/KeyError propagate), 400 when
no row matches, the no-write "already confirmed" message when the flag is
set, else confirms through the repository and reports success. -/
def confirmed_email_route (token : Token) (db : List User) (now : Nat) :
    Except PyErr String × List User :=
  match get_email_from_token SECRET_KEY ALGORITHM token now with
  | .error e => (.error e, db)
  | .ok email_val =>
      let user := match email_val with
        | none => none
        | some email => get_user_by_email email db
      match user with
      | none => (.error (.http ⟨400, "Verification error"⟩), db)
      | some u =>
          if u.confirmed then (.ok "Your email is already confirmed", db)
          else
            match email_val with
            | some email =>
                match confirm_email email db with
                | .ok db2 => (.ok "Email confirmed", db2)
                | .error e => (.error e, db)
            | none => (.error (.http ⟨400, "Verification error"⟩), db)

/-- src/routes/auth.py `request_email` (POST /request_email): reads
`user.confirmed` straight off the looked-up row — an AttributeError on `None`
when no row matches — then the `if user:` guard decides whether the
confirmation email is enqueued (the Bool of the result). The guard's false
branch answers without enqueueing. -/
def request_email (email : String) (db : List User) :
    Except PyErr (String × Bool) :=
  let user := get_user_by_email email db
  match user with
  | none => .error (.attributeError "confirmed")
  | some u =>
      if u.confirmed then .ok ("Your email is already confirmed", false)
      else
        match user with
        | some _ => .ok ("Check your email for confirmation.", true)
        | none => .ok ("Check your email for confirmation.", false)

/-- A Contact row. Modelled from the spec where src/db/models.py is absent:
spec section 3 gives id (the primary key — update/delete fetch it with
`session.query(Contact).get(id)`), the name/email/phone strings, a birth
date, and optional free text. `birth_date` is the stored datetime as an
absolute day ordinal (datetimes compare chronologically). -/
structure Contact where
  id : Nat
  first_name : String
  last_name : String
  email : String
  phone_number : String
  birth_date : Nat
  additional_data : Option String
deriving Repr, DecidableEq

/-- Request body of the contact handlers (`UserContact` pydantic model). -/
structure UserContact where
  contact_id : Nat
  first_name : String
  last_name : String
  email : String
  phone_number : String
  birth_date : Nat
  additional_info : Option String
deriving Repr, DecidableEq

/-- The `Contact(...)` construction inside `create_new_contact`. -/
def toContact (c : UserContact) : Contact :=
  ⟨c.contact_id, c.first_name, c.last_name, c.email, c.phone_number,
   c.birth_date, c.additional_info⟩

/-- src/repository/contacts.py `create_new_contact`: adds the new row and
commits; a duplicate primary key makes the commit raise IntegrityError,
which the blanket `except` turns into a rollback and a 500. -/
def create_new_contact (contact : UserContact) (session : List Contact) :
    Except HTTPException UserContact × List Contact :=
  if session.any (fun c => c.id == contact.contact_id) then
    (.error ⟨500, "Internal Server Error: " ++ PyExc.str .integrityError⟩,
     session)
  else
    (.ok contact, session ++ [toContact contact])

/-- src/repository/contacts.py `get_contact`: first row with the id, 404 when
none. -/
def get_contact (contact_id : Nat) (db : List Contact) :
    Except HTTPException Contact :=
  match db.find? (fun c => c.id == contact_id) with
  | none => .error ⟨404, "Contact not found"⟩
  | some contact => .ok contact

/-- src/repository/contacts.py `update_contact` (same body in
src/routes/router_endpoints.py): the 404 for a missing id is raised inside
the `try` block, so the blanket `except Exception` catches it, rolls back,
and re-raises it as a 500 whose detail interpolates `str(e)`; on a present id
every mutable field (not the id) is replaced and committed. -/
def update_contact (contact_id : Nat) (updated_contact : UserContact)
    (session : List Contact) : Except HTTPException String × List Contact :=
  match session.find? (fun c => c.id == contact_id) with
  | none =>
      (.error ⟨500, "Internal Server Error: "
          ++ PyExc.str (.httpExc ⟨404, "Contact not found"⟩)⟩,
       session)
  | some _ =>
      (.ok "Success!",
       session.map fun c =>
         if c.id == contact_id then
           { c with
             first_name := updated_contact.first_name,
             last_name := updated_contact.last_name,
             email := updated_contact.email,
             phone_number := updated_contact.phone_number,
             birth_date := updated_contact.birth_date,
             additional_data := updated_contact.additional_info }
         else c)

/-- src/repository/contacts.py `delete_contact`: here the 404 is raised
outside any `try`, so it surfaces as is; otherwise the fetched row is deleted
and committed. -/
def delete_contact (contact_id : Nat) (session : List Contact) :
    Except HTTPException String × List Contact :=
  match session.find? (fun c => c.id == contact_id) with
  | none => (.error ⟨404, "Contact not found"⟩, session)
  | some _ =>
      (.ok "Success!", session.eraseP (fun c => c.id == contact_id))

/-- src/routes/router_endpoints.py `get_upcoming_birthdays`: filters on the
stored birth_date lying in the closed absolute interval from today to
today + 7 days, inclusive on both ends (`>= today` and `<= end_date`). -/
def get_upcoming_birthdays (session : List Contact) (today : Nat) :
    List Contact :=
  let end_date := today + 7
  session.filter fun c =>
    decide (today ≤ c.birth_date ∧ c.birth_date ≤ end_date)

/-! Helper lemmas about the token layer. -/

theorem decode_ok (t : Token) (key alg : String) (now : Nat)
    (hk : t.key = key) (ha : t.alg = alg) (he : now < t.payload.exp) :
    decode t key [alg] now = .ok t.payload := by
  simp [decode, hk, ha, Nat.not_le.mpr he]

theorem decode_err (t : Token) (key alg : String) (now : Nat)
    (h : t.key ≠ key ∨ t.alg ≠ alg ∨ t.payload.exp ≤ now) :
    ∃ e, decode t key [alg] now = .error e := by
  unfold decode
  rcases h with h | h | h
  · exact ⟨.signatureError, by simp [h]⟩
  · exact ⟨.signatureError, by simp [h]⟩
  · by_cases hka : t.key = key ∧ t.alg = alg
    · exact ⟨.expiredError, by simp [hka.1, hka.2, h]⟩
    · refine ⟨.signatureError, ?_⟩
      rcases not_and_or.mp hka with hk | halg
      · simp [hk]
      · simp [halg]

theorem verify_token_err (t : Token) (now : Nat)
    (h : t.key ≠ SECRET_KEY ∨ t.alg ≠ ALGORITHM ∨ t.payload.exp ≤ now) :
    verify_token t now = .error credentials_exception := by
  obtain ⟨e, he⟩ := decode_err t SECRET_KEY ALGORITHM now h
  simp [verify_token, he]

theorem verify_token_ok (t : Token) (now : Nat)
    (hk : t.key = SECRET_KEY) (ha : t.alg = ALGORITHM)
    (he : now < t.payload.exp) :
    verify_token t now = .ok t.payload := by
  simp [verify_token, decode_ok t SECRET_KEY ALGORITHM now hk ha he]

/-- Claim C1 (counterexample): a well-signed, unexpired token whose payload
lacks the `sub` claim is not rejected by `verify_token` at all (the payload
comes back), and in `get_current_user` and `get_email_from_token` it
surfaces as an uncaught KeyError, not the uniform rejection; moreover
`get_email_from_token` rejects even a cryptographically defective token with
a 422 and a different message, not the uniform 401. -/
theorem C1_counterexample :
    verify_token ⟨⟨none, 1000⟩, SECRET_KEY, ALGORITHM⟩ 0 = .ok ⟨none, 1000⟩ ∧
    get_current_user ⟨⟨none, 1000⟩, SECRET_KEY, ALGORITHM⟩ [] 0 =
      .error (.keyError "sub") ∧
    get_email_from_token SECRET_KEY ALGORITHM
      ⟨⟨none, 1000⟩, SECRET_KEY, ALGORITHM⟩ 0 = .error (.keyError "sub") ∧
    get_email_from_token SECRET_KEY ALGORITHM
      ⟨⟨some (some "a@x.com"), 1000⟩, "wrong key", ALGORITHM⟩ 0 =
      .error (.http ⟨422, "Invalid token for email verification"⟩) :=
  ⟨rfl, rfl, rfl, rfl⟩

/-- Claim C1 (amended): cryptographic defects (key mismatch, algorithm
mismatch, reached expiry) are rejected uniformly by `verify_token` and
`get_current_user` with the 401 `Invalid credentials`, while
`get_email_from_token` rejects them with its own 422 detail; but a
well-signed, unexpired token lacking the `sub` claim is returned untouched
by `verify_token` (no subject check), and raises an uncaught KeyError in
`get_current_user` and `get_email_from_token`. -/
theorem C1_rejection_amended :
    (∀ (t : Token) (now : Nat),
        t.key ≠ SECRET_KEY ∨ t.alg ≠ ALGORITHM ∨ t.payload.exp ≤ now →
        verify_token t now = .error credentials_exception) ∧
    (∀ (t : Token) (now : Nat),
        t.key = SECRET_KEY → t.alg = ALGORITHM → now < t.payload.exp →
        verify_token t now = .ok t.payload) ∧
    (∀ (t : Token) (db : List User) (now : Nat),
        t.key ≠ SECRET_KEY ∨ t.alg ≠ ALGORITHM ∨ t.payload.exp ≤ now →
        get_current_user t db now = .error (.http credentials_exception)) ∧
    (∀ (t : Token) (db : List User) (now : Nat),
        t.key = SECRET_KEY → t.alg = ALGORITHM → now < t.payload.exp →
        t.payload.sub = none →
        get_current_user t db now = .error (.keyError "sub")) ∧
    (∀ (t : Token) (now : Nat),
        t.key ≠ SECRET_KEY ∨ t.alg ≠ ALGORITHM ∨ t.payload.exp ≤ now →
        get_email_from_token SECRET_KEY ALGORITHM t now =
          .error (.http ⟨422, "Invalid token for email verification"⟩)) ∧
    (∀ (t : Token) (now : Nat),
        t.key = SECRET_KEY → t.alg = ALGORITHM → now < t.payload.exp →
        t.payload.sub = none →
        get_email_from_token SECRET_KEY ALGORITHM t now =
          .error (.keyError "sub")) := by
  refine ⟨verify_token_err, verify_token_ok, ?_, ?_, ?_, ?_⟩
  · intro t db now h
    obtain ⟨e, he⟩ := decode_err t SECRET_KEY ALGORITHM now h
    simp [get_current_user, he]
  · intro t db now hk ha he hs
    simp [get_current_user, decode_ok t SECRET_KEY ALGORITHM now hk ha he, hs]
  · intro t now h
    obtain ⟨e, he⟩ := decode_err t SECRET_KEY ALGORITHM now h
    simp [get_email_from_token, he]
  · intro t now hk ha he hs
    simp [get_email_from_token,
      decode_ok t SECRET_KEY ALGORITHM now hk ha he, hs]

theorem C1_rejection_amended_witness :
    ((⟨⟨some (some "a@x.com"), 50⟩, SECRET_KEY, ALGORITHM⟩ : Token).payload.exp
        ≤ 99 ∧
      verify_token ⟨⟨some (some "a@x.com"), 50⟩, SECRET_KEY, ALGORITHM⟩ 99 =
        .error credentials_exception) ∧
    get_current_user ⟨⟨none, 1000⟩, SECRET_KEY, ALGORITHM⟩ [] 0 =
      .error (.keyError "sub") :=
  ⟨⟨by decide,
    C1_rejection_amended.1 ⟨⟨some (some "a@x.com"), 50⟩, SECRET_KEY, ALGORITHM⟩
      99 (Or.inr (Or.inr (by decide)))⟩,
   C1_rejection_amended.2.2.2.1 ⟨⟨none, 1000⟩, SECRET_KEY, ALGORITHM⟩ [] 0
     rfl rfl (by decide) rfl⟩

/-- Claim C2: every well-signed, unexpired refresh token carrying subject `s`
makes `refresh_access_token` succeed with token_type `bearer` and a freshly
minted access token whose payload decodes back to subject `s`; the handler
takes no database session, so no comparison with the stored refresh_token
column can occur. -/
theorem C2_refresh_access_token (t : Token) (now : Nat) (s : String)
    (hk : t.key = SECRET_KEY) (ha : t.alg = ALGORITHM)
    (he : now < t.payload.exp) (hs : t.payload.sub = some (some s)) :
    refresh_access_token t now =
      .ok ⟨encode ⟨some (some s), now + ACCESS_TOKEN_EXPIRE_MINUTES * 60⟩
             SECRET_KEY ALGORITHM, "bearer"⟩ ∧
    decode (encode ⟨some (some s), now + ACCESS_TOKEN_EXPIRE_MINUTES * 60⟩
        SECRET_KEY ALGORITHM) SECRET_KEY [ALGORITHM] now =
      .ok ⟨some (some s), now + ACCESS_TOKEN_EXPIRE_MINUTES * 60⟩ := by
  constructor
  · simp [refresh_access_token, verify_token_ok t now hk ha he, hs,
      Option.join, create_access_token]
  · exact decode_ok _ SECRET_KEY ALGORITHM now rfl rfl
      (by simp [encode, ACCESS_TOKEN_EXPIRE_MINUTES])

theorem C2_refresh_access_token_witness :
    ((⟨⟨some (some "a@x.com"), 1000⟩, SECRET_KEY, ALGORITHM⟩ : Token).key =
        SECRET_KEY ∧
      0 < (⟨⟨some (some "a@x.com"), 1000⟩, SECRET_KEY, ALGORITHM⟩ :
        Token).payload.exp) ∧
    refresh_access_token ⟨⟨some (some "a@x.com"), 1000⟩, SECRET_KEY, ALGORITHM⟩
        0 =
      .ok ⟨encode ⟨some (some "a@x.com"), 0 + ACCESS_TOKEN_EXPIRE_MINUTES * 60⟩
             SECRET_KEY ALGORITHM, "bearer"⟩ :=
  ⟨⟨rfl, by decide⟩,
   (C2_refresh_access_token ⟨⟨some (some "a@x.com"), 1000⟩, SECRET_KEY,
      ALGORITHM⟩ 0 "a@x.com" rfl rfl (by decide) rfl).1⟩

/-- Claim C3: `verify_password` is a total boolean check — true exactly when
the plaintext matches the digest, false on any mismatch and on every
malformed digest, never an exception — and consequently `get_user` returns
the user exactly on a correct password and `none` (rather than erroring)
otherwise, including when the stored hash is malformed. -/
theorem C3_verify_never_raises :
    (∀ plain salt, verify_password plain (get_password_hash plain salt) =
      true) ∧
    (∀ plain d, verify_password plain d = true ↔
      ∃ salt, d = Digest.bcrypt salt plain) ∧
    (∀ plain raw, verify_password plain (Digest.malformed raw) = false) ∧
    (∀ email pwd (db : List User) u, get_user email pwd db = some u →
      u ∈ db ∧ u.email = email ∧ verify_password pwd u.password = true) ∧
    (∀ email pwd (db : List User) u,
      db.find? (fun v => v.email == email) = some u →
      verify_password pwd u.password = false →
      get_user email pwd db = none) := by
  refine ⟨?_, ?_, ?_, ?_, ?_⟩
  · intro plain salt; simp [verify_password, get_password_hash]
  · intro plain d
    cases d with
    | bcrypt salt body =>
        simp only [verify_password, beq_iff_eq]
        constructor
        · rintro rfl; exact ⟨salt, rfl⟩
        · rintro ⟨s, h⟩; cases h; rfl
    | malformed raw => simp [verify_password]
  · intro plain raw; rfl
  · intro email pwd db u h
    unfold get_user at h
    cases hf : db.find? (fun v => v.email == email) with
    | none => rw [hf] at h; cases h
    | some user =>
        rw [hf] at h
        by_cases hv : verify_password pwd user.password
        · simp only [hv, if_true] at h
          cases h
          refine ⟨List.mem_of_find?_eq_some hf, ?_, hv⟩
          have := List.find?_some hf
          simpa [beq_iff_eq] using this
        · simp [hv] at h
  · intro email pwd db u hf hv
    unfold get_user
    rw [hf]
    simp [hv]

theorem C3_verify_never_raises_witness :
    (get_user "a@x.com" "pw"
        [⟨1, "alice", "a@x.com", .bcrypt 0 "pw", none, true, none⟩] =
      some ⟨1, "alice", "a@x.com", .bcrypt 0 "pw", none, true, none⟩) ∧
    (⟨1, "alice", "a@x.com", .bcrypt 0 "pw", none, true, none⟩ : User) ∈
      [⟨1, "alice", "a@x.com", .bcrypt 0 "pw", none, true, none⟩] ∧
    ([(⟨2, "bob", "b@x.com", .malformed "garbage", none, true, none⟩ :
        User)].find? (fun v => v.email == "b@x.com") =
      some ⟨2, "bob", "b@x.com", .malformed "garbage", none, true, none⟩) ∧
    verify_password "anything"
      (⟨2, "bob", "b@x.com", .malformed "garbage", none, true, none⟩ :
        User).password = false ∧
    get_user "b@x.com" "anything"
      [⟨2, "bob", "b@x.com", .malformed "garbage", none, true, none⟩] =
      none := by
  refine ⟨rfl, ?_, rfl, rfl, ?_⟩
  · exact (C3_verify_never_raises.2.2.2.1 "a@x.com" "pw"
      [⟨1, "alice", "a@x.com", .bcrypt 0 "pw", none, true, none⟩]
      ⟨1, "alice", "a@x.com", .bcrypt 0 "pw", none, true, none⟩ rfl).1
  · exact C3_verify_never_raises.2.2.2.2 "b@x.com" "anything"
      [⟨2, "bob", "b@x.com", .malformed "garbage", none, true, none⟩]
      ⟨2, "bob", "b@x.com", .malformed "garbage", none, true, none⟩ rfl rfl

/-- Claim C5 (counterexample): on the src/routes/routes.py login handler a
fully successful login (user present, confirmed, password correct) returns
the token pair but leaves the store untouched — the user's refresh_token
column still holds `none`, so no freshly minted refresh token was
persisted. -/
theorem C5_counterexample :
    (login_routes "a@x.com" "goodpass"
        [⟨1, "alice", "a@x.com", .bcrypt 0 "goodpass", none, true, none⟩]
        0).fst =
      .ok ⟨encode ⟨some (some "a@x.com"),
              0 + ACCESS_TOKEN_EXPIRE_MINUTES * 60⟩ SECRET_KEY ALGORITHM,
           encode ⟨some (some "a@x.com"),
              0 + REFRESH_TOKEN_EXPIRE_DAYS * 24 * 60 * 60⟩ SECRET_KEY
              ALGORITHM,
           "bearer"⟩ ∧
    (login_routes "a@x.com" "goodpass"
        [⟨1, "alice", "a@x.com", .bcrypt 0 "goodpass", none, true, none⟩]
        0).snd =
      [⟨1, "alice", "a@x.com", .bcrypt 0 "goodpass", none, true, none⟩] ∧
    (⟨1, "alice", "a@x.com", .bcrypt 0 "goodpass", none, true, none⟩ :
      User).refresh_token = none :=
  ⟨rfl, rfl, rfl⟩

/-- Claim C5 (amended): only the src/routes/auth.py login handler persists
the freshly minted refresh token (through `update_token`, overwriting the
stored value, before returning the pair); the src/routes/routes.py login
handler mints a refresh token but performs no write at all — its store comes
back unchanged. -/
theorem C5_login_persists_amended :
    (∀ username password (db : List User) now user,
        get_user_by_email username db = some user →
        user.confirmed = true →
        verify_password password user.password = true →
        (login_auth username password db now).fst =
          .ok ⟨create_access_token ⟨some (some user.email)⟩ none now,
               create_refresh_token ⟨some (some user.email)⟩ now,
               "bearer"⟩ ∧
        (login_auth username password db now).snd =
          update_token user
            (some (create_refresh_token ⟨some (some user.email)⟩ now)) db ∧
        (∀ u' ∈ (login_auth username password db now).snd,
          u'.id = user.id →
          u'.refresh_token =
            some (create_refresh_token ⟨some (some user.email)⟩ now))) ∧
    (∀ username password (db : List User) now,
        (login_routes username password db now).snd = db) := by
  constructor
  · intro username password db now user hfind hconf hverify
    have hfst :
        login_auth username password db now =
          (.ok ⟨create_access_token ⟨some (some user.email)⟩ none now,
                create_refresh_token ⟨some (some user.email)⟩ now,
                "bearer"⟩,
           update_token user
             (some (create_refresh_token ⟨some (some user.email)⟩ now))
             db) := by
      unfold login_auth
      rw [hfind]
      simp [hconf, hverify]
    refine ⟨by rw [hfst], by rw [hfst], ?_⟩
    intro u' hu' hid
    rw [hfst] at hu'
    simp only [update_token, List.mem_map] at hu'
    obtain ⟨v, hv, hveq⟩ := hu'
    by_cases hvid : v.id = user.id
    · simp [hvid] at hveq
      rw [← hveq]
    · simp [hvid] at hveq
      rw [← hveq] at hid
      exact absurd hid hvid
  · intro username password db now
    unfold login_routes
    cases h : get_user username password db <;> simp [h]

theorem C5_login_persists_amended_witness :
    (get_user_by_email "a@x.com"
        [⟨1, "alice", "a@x.com", .bcrypt 0 "goodpass", none, true, none⟩] =
      some ⟨1, "alice", "a@x.com", .bcrypt 0 "goodpass", none, true, none⟩) ∧
    (login_auth "a@x.com" "goodpass"
        [⟨1, "alice", "a@x.com", .bcrypt 0 "goodpass", none, true, none⟩]
        0).snd =
      update_token
        ⟨1, "alice", "a@x.com", .bcrypt 0 "goodpass", none, true, none⟩
        (some (create_refresh_token ⟨some (some "a@x.com")⟩ 0))
        [⟨1, "alice", "a@x.com", .bcrypt 0 "goodpass", none, true, none⟩] :=
  ⟨rfl,
   (C5_login_persists_amended.1 "a@x.com" "goodpass"
     [⟨1, "alice", "a@x.com", .bcrypt 0 "goodpass", none, true, none⟩] 0
     ⟨1, "alice", "a@x.com", .bcrypt 0 "goodpass", none, true, none⟩ rfl rfl
     rfl).2.1⟩

/-- Claim C6 (counterexample): the src/routes/auth.py login handler answers
two differently-caused failures with two different details — an unknown
email gets `Invalid email`, an unconfirmed account gets
`Email not confirmed` — so the failed check is revealed. -/
theorem C6_counterexample :
    (login_auth "bob@x.com" "pw"
        [⟨1, "alice", "a@x.com", .bcrypt 0 "goodpass", none, false, none⟩]
        0).fst = .error ⟨401, "Invalid email"⟩ ∧
    (login_auth "a@x.com" "pw"
        [⟨1, "alice", "a@x.com", .bcrypt 0 "goodpass", none, false, none⟩]
        0).fst = .error ⟨401, "Email not confirmed"⟩ ∧
    (⟨401, "Invalid email"⟩ : HTTPException) ≠
      ⟨401, "Email not confirmed"⟩ :=
  ⟨rfl, rfl, by decide⟩

/-- Claim C6 (amended): failure indistinguishability holds for the
`/token` handler, the routes.py login handler, the refresh handler and the
auth gate — every failure there is the one 401 `Invalid credentials` —
but the src/routes/auth.py login handler answers with a cause-specific
detail (`Invalid email`, `Email not confirmed` or `Invalid password`),
revealing which check failed. -/
theorem C6_uniform_failures_amended :
    (∀ u p (db : List User) now e,
        login_for_access_token u p db now = .error e →
        e = credentials_exception) ∧
    (∀ u p (db : List User) now e,
        (login_routes u p db now).fst = .error e →
        e = credentials_exception) ∧
    (∀ (t : Token) now e,
        refresh_access_token t now = .error e →
        e = credentials_exception) ∧
    (∀ (t : Token) (db : List User) now e,
        get_current_user t db now = .error (.http e) →
        e = credentials_exception) ∧
    (∀ u p (db : List User) now e,
        (login_auth u p db now).fst = .error e →
        e = ⟨401, "Invalid email"⟩ ∨ e = ⟨401, "Email not confirmed"⟩ ∨
        e = ⟨401, "Invalid password"⟩) := by
  have hvt : ∀ (t : Token) now e,
      verify_token t now = .error e → e = credentials_exception := by
    intro t now e h
    unfold verify_token at h
    split at h
    · cases h
    · cases h; rfl
  refine ⟨?_, ?_, ?_, ?_, ?_⟩
  · intro u p db now e h
    unfold login_for_access_token at h
    split at h
    · cases h; rfl
    · cases h
  · intro u p db now e h
    unfold login_routes at h
    split at h <;> simp_all
  · intro t now e h
    unfold refresh_access_token at h
    split at h
    · cases h
      exact hvt t now e (by assumption)
    · split at h
      · cases h; rfl
      · cases h
  · intro t db now e h
    unfold get_current_user at h
    split at h
    · cases h; rfl
    · split at h
      · cases h
      · cases h; rfl
      · split at h
        · cases h; rfl
        · cases h
  · intro u p db now e h
    unfold login_auth at h
    split at h
    · cases h; exact Or.inl rfl
    · split at h
      · cases h; exact Or.inr (Or.inl rfl)
      · split at h
        · cases h; exact Or.inr (Or.inr rfl)
        · cases h

theorem C6_uniform_failures_amended_witness :
    (login_for_access_token "nobody@x.com" "pw" [] 0 =
      .error credentials_exception) ∧
    credentials_exception = credentials_exception :=
  ⟨rfl, C6_uniform_failures_amended.1 "nobody@x.com" "pw" [] 0
    credentials_exception rfl⟩

/-- Claim C7: the update handlers raise the 404 for a missing contact id
inside the `try` block, the blanket `except Exception` catches it, rolls
back, and surfaces a 500 internal error wrapping the 404 text — so the
failure class is Internal, not NotFound, although the store is indeed left
unchanged. Evaluated at concrete failing inputs (an empty store and a store
without the requested id). -/
theorem C7_update_nonexistent_surfaces_500 :
    update_contact 1 ⟨1, "Ann", "B", "ann@x.com", "123", 10, none⟩ [] =
      (.error ⟨500, "Internal Server Error: 404: Contact not found"⟩, []) ∧
    update_contact 5 ⟨5, "Ann", "B", "ann@x.com", "123", 10, none⟩
        [⟨2, "Bea", "C", "bea@x.com", "456", 20, none⟩] =
      (.error ⟨500, "Internal Server Error: 404: Contact not found"⟩,
       [⟨2, "Bea", "C", "bea@x.com", "456", 20, none⟩]) :=
  ⟨rfl, rfl⟩

/-! Helper lemmas about the contact store. -/

theorem find?_append_none {α} (p : α → Bool) (l₁ l₂ : List α)
    (h : l₁.find? p = none) : (l₁ ++ l₂).find? p = l₂.find? p := by
  induction l₁ with
  | nil => rfl
  | cons a t ih =>
      by_cases hpa : p a
      · rw [List.find?_cons_of_pos t hpa] at h; cases h
      · rw [List.find?_cons_of_neg t hpa] at h
        rw [List.cons_append, List.find?_cons_of_neg (t ++ l₂) hpa]
        exact ih h

theorem find?_eraseP_of_nodup (session : List Contact) (i : Nat)
    (hnodup : (session.map Contact.id).Nodup) :
    (session.eraseP (fun c => c.id == i)).find? (fun c => c.id == i) =
      none := by
  induction session with
  | nil => rfl
  | cons a t ih =>
      simp only [List.map_cons, List.nodup_cons] at hnodup
      by_cases hpa : a.id = i
      · rw [List.eraseP_cons_of_pos (by simpa using hpa)]
        rw [List.find?_eq_none]
        intro c hc
        simp only [beq_iff_eq]
        intro hci
        exact hnodup.1 (by
          rw [hpa, ← hci]
          exact List.mem_map_of_mem Contact.id hc)
      · rw [List.eraseP_cons_of_neg (by simpa using hpa),
          List.find?_cons_of_neg _ (by simpa using hpa)]
        exact ih hnodup.2

/-- Claim C8: with a fresh id, `create` followed by `get` of that id returns
a row equal in every field to the payload; and for an id present in a store
whose primary keys are distinct, `delete` followed by `get` of that id fails
with the 404 NotFound. -/
theorem C8_create_get_delete (uc : UserContact) (session : List Contact)
    (hfresh : ∀ c ∈ session, c.id ≠ uc.contact_id)
    (i : Nat) (c : Contact) (hc : c ∈ session) (hid : c.id = i)
    (hnodup : (session.map Contact.id).Nodup) :
    (create_new_contact uc session).fst = .ok uc ∧
    get_contact uc.contact_id (create_new_contact uc session).snd =
      .ok (toContact uc) ∧
    ((toContact uc).first_name = uc.first_name ∧
     (toContact uc).last_name = uc.last_name ∧
     (toContact uc).email = uc.email ∧
     (toContact uc).phone_number = uc.phone_number ∧
     (toContact uc).birth_date = uc.birth_date ∧
     (toContact uc).additional_data = uc.additional_info) ∧
    (delete_contact i session).fst = .ok "Success!" ∧
    get_contact i (delete_contact i session).snd =
      .error ⟨404, "Contact not found"⟩ := by
  have hany : session.any (fun v => v.id == uc.contact_id) = false := by
    rw [List.any_eq_false]
    intro v hv
    simpa using hfresh v hv
  have hnone : session.find? (fun v => v.id == uc.contact_id) = none := by
    rw [List.find?_eq_none]
    intro v hv
    simpa using hfresh v hv
  have hfind : ∃ d, session.find? (fun v => v.id == i) = some d := by
    cases hf : session.find? (fun v => v.id == i) with
    | none =>
        exact absurd (by simpa using hid)
          (List.find?_eq_none.mp hf c hc)
    | some d => exact ⟨d, rfl⟩
  obtain ⟨d, hd⟩ := hfind
  refine ⟨?_, ?_, ⟨rfl, rfl, rfl, rfl, rfl, rfl⟩, ?_, ?_⟩
  · simp [create_new_contact, hany]
  · have hsnd : (create_new_contact uc session).snd =
        session ++ [toContact uc] := by
      simp [create_new_contact, hany]
    rw [hsnd]
    unfold get_contact
    rw [find?_append_none _ session [toContact uc] hnone,
      List.find?_cons_of_pos _ (by simp [toContact])]
  · simp [delete_contact, hd]
  · have hsnd : (delete_contact i session).snd =
        session.eraseP (fun v => v.id == i) := by
      simp [delete_contact, hd]
    rw [hsnd]
    unfold get_contact
    rw [find?_eraseP_of_nodup session i hnodup]

theorem C8_create_get_delete_witness :
    (∀ c ∈ [(⟨1, "Bea", "C", "bea@x.com", "456", 20, none⟩ : Contact)],
        c.id ≠ 2) ∧
    (create_new_contact ⟨2, "Ann", "B", "ann@x.com", "123", 10, none⟩
        [⟨1, "Bea", "C", "bea@x.com", "456", 20, none⟩]).fst =
      .ok ⟨2, "Ann", "B", "ann@x.com", "123", 10, none⟩ ∧
    get_contact 1
        (delete_contact 1
          [⟨1, "Bea", "C", "bea@x.com", "456", 20, none⟩]).snd =
      .error ⟨404, "Contact not found"⟩ := by
  have h := C8_create_get_delete
    ⟨2, "Ann", "B", "ann@x.com", "123", 10, none⟩
    [⟨1, "Bea", "C", "bea@x.com", "456", 20, none⟩]
    (by decide) 1 ⟨1, "Bea", "C", "bea@x.com", "456", 20, none⟩
    (List.mem_singleton.mpr rfl) rfl (by decide)
  exact ⟨by decide, h.1, h.2.2.2.2⟩

/-- Claim C9: the upcoming-birthdays query returns exactly the stored rows
whose birth_date lies in the closed absolute interval from today to
today + 7 (year included, since the comparison is on absolute dates); a row
whose stored date is a whole year past today — the same calendar day next
year — is never returned, and no wrap across a year boundary occurs. -/
theorem C9_upcoming_birthdays :
    (∀ (session : List Contact) (today : Nat) (c : Contact),
        c ∈ get_upcoming_birthdays session today ↔
        c ∈ session ∧ today ≤ c.birth_date ∧ c.birth_date ≤ today + 7) ∧
    (∀ (session : List Contact) (today : Nat) (c : Contact),
        c.birth_date = today + 365 →
        c ∉ get_upcoming_birthdays session today) := by
  have hmem : ∀ (session : List Contact) (today : Nat) (c : Contact),
      c ∈ get_upcoming_birthdays session today ↔
      c ∈ session ∧ today ≤ c.birth_date ∧ c.birth_date ≤ today + 7 := by
    intro session today c
    simp [get_upcoming_birthdays, List.mem_filter]
  refine ⟨hmem, ?_⟩
  intro session today c hyear hmemc
  have := ((hmem session today c).mp hmemc).2.2
  omega

theorem C9_upcoming_birthdays_witness :
    (⟨1, "Ann", "B", "ann@x.com", "123", 465, none⟩ : Contact).birth_date =
      100 + 365 ∧
    (⟨1, "Ann", "B", "ann@x.com", "123", 465, none⟩ : Contact) ∉
      get_upcoming_birthdays
        [⟨1, "Ann", "B", "ann@x.com", "123", 465, none⟩] 100 :=
  ⟨rfl, C9_upcoming_birthdays.2
    [⟨1, "Ann", "B", "ann@x.com", "123", 465, none⟩] 100
    ⟨1, "Ann", "B", "ann@x.com", "123", 465, none⟩ rfl⟩

/-- Claim C10: the request_email handler dereferences `user.confirmed`
before any existence check, so a request whose email matches no row ends in
an AttributeError on the null user instead of any HTTP response; and the
later `if user:` guard is dead in its false branch — the only reply that
skips enqueueing the confirmation email is the already-confirmed one. -/
theorem C10_request_email_null_deref :
    (∀ email (db : List User), get_user_by_email email db = none →
        request_email email db = .error (.attributeError "confirmed")) ∧
    (∀ email (db : List User) (m : String),
        request_email email db = .ok (m, false) →
        m = "Your email is already confirmed") := by
  constructor
  · intro email db h
    simp [request_email, h]
  · intro email db m h
    simp only [request_email] at h
    split at h
    · cases h
    · split at h
      · cases h; rfl
      · split at h <;> simp_all

theorem C10_request_email_null_deref_witness :
    get_user_by_email "ghost@x.com" [] = none ∧
    request_email "ghost@x.com" [] = .error (.attributeError "confirmed") :=
  ⟨rfl, C10_request_email_null_deref.1 "ghost@x.com" [] rfl⟩

/-! Helper lemmas about the confirmed flag. -/

theorem mono_confirmed_id (db : List User)
    (hnd : (db.map User.email).Nodup)
    (u : User) (hu : u ∈ db) (huc : u.confirmed = true) :
    ∀ u' ∈ db, u'.email = u.email → u'.confirmed = true := by
  intro u' hu' he
  have h : u' = u := List.inj_on_of_nodup_map hnd hu' hu he
  exact h ▸ huc

theorem mono_confirmed_map (f : User → User)
    (hfe : ∀ v : User, (f v).email = v.email)
    (hfc : ∀ v : User, v.confirmed = true → (f v).confirmed = true)
    (db : List User) (hnd : (db.map User.email).Nodup)
    (u : User) (hu : u ∈ db) (huc : u.confirmed = true) :
    ∀ u' ∈ db.map f, u'.email = u.email → u'.confirmed = true := by
  intro u' hu' he
  obtain ⟨v, hv, rfl⟩ := List.mem_map.mp hu'
  have hvemail : v.email = u.email := by rw [← hfe v]; exact he
  have hveq : v = u := List.inj_on_of_nodup_map hnd hv hu hvemail
  exact hfc v (hveq ▸ huc)

theorem confirm_map_email (e : String) (v : User) :
    ((fun w => if w.email == e then { w with confirmed := true } else w)
      v).email = v.email := by
  dsimp only
  split <;> rfl

theorem confirm_map_keeps (e : String) (v : User)
    (h : v.confirmed = true) :
    ((fun w => if w.email == e then { w with confirmed := true } else w)
      v).confirmed = true := by
  dsimp only
  split
  · rfl
  · exact h

theorem confirm_map_confirms (e : String) (db : List User) :
    ∀ u' ∈ db.map (fun v =>
      if v.email == e then { v with confirmed := true } else v),
      u'.email = e → u'.confirmed = true := by
  intro u' hu' he
  obtain ⟨v, hv, rfl⟩ := List.mem_map.mp hu'
  by_cases hve : v.email = e
  · simp [hve]
  · rw [if_neg (by simpa using hve)] at he
    exact absurd he hve

theorem update_token_mono (user : User) (tok : Option Token)
    (db : List User) (hnd : (db.map User.email).Nodup)
    (u : User) (hu : u ∈ db) (huc : u.confirmed = true) :
    ∀ u' ∈ update_token user tok db, u'.email = u.email →
      u'.confirmed = true := by
  unfold update_token
  refine mono_confirmed_map _ ?_ ?_ db hnd u hu huc
  · intro v; dsimp only; split <;> rfl
  · intro v h; dsimp only; split
    · exact h
    · exact h

theorem verify_user_email_snd (t : Token) (db : List User) (now : Nat) :
    (verify_user_email t db now).snd = db ∨
    ∃ email, (verify_user_email t db now).snd =
      db.map (fun v =>
        if v.email == email then { v with confirmed := true } else v) := by
  unfold verify_user_email
  split
  · left; rfl
  · split
    · left; rfl
    · left; rfl
    · split
      · left; rfl
      · split
        · left; rfl
        · right; exact ⟨_, rfl⟩

theorem confirmed_email_route_snd (t : Token) (db : List User) (now : Nat) :
    (confirmed_email_route t db now).snd = db ∨
    ∃ email, (confirmed_email_route t db now).snd =
      db.map (fun v =>
        if v.email == email then { v with confirmed := true } else v) := by
  cases hget : get_email_from_token SECRET_KEY ALGORITHM t now with
  | error e => left; simp [confirmed_email_route, hget]
  | ok email_val =>
      cases email_val with
      | none => left; simp [confirmed_email_route, hget]
      | some e =>
          cases huser : get_user_by_email e db with
          | none => left; simp [confirmed_email_route, hget, huser]
          | some u =>
              by_cases hconf : u.confirmed
              · left; simp [confirmed_email_route, hget, huser, hconf]
              · right
                refine ⟨e, ?_⟩
                simp [confirmed_email_route, hget, huser, hconf,
                  confirm_email]

theorem login_auth_snd (username password : String) (db : List User)
    (now : Nat) :
    (login_auth username password db now).snd = db ∨
    ∃ user tok, (login_auth username password db now).snd =
      update_token user tok db := by
  unfold login_auth
  split
  · left; rfl
  · split
    · left; rfl
    · split
      · left; rfl
      · right; exact ⟨_, _, rfl⟩

theorem login_routes_snd (username password : String) (db : List User)
    (now : Nat) : (login_routes username password db now).snd = db := by
  unfold login_routes
  split
  · rfl
  · rfl

theorem signup_snd (body : UserModel) (salt new_id : Nat)
    (db : List User) :
    (signup body salt new_id db).snd = db ∨
    (get_user_by_email body.email db = none ∧
     (signup body salt new_id db).snd = db ++
       [⟨new_id, body.username, body.email,
         get_password_hash body.password salt, none, false, none⟩]) := by
  unfold signup
  split
  · left; rfl
  · right; exact ⟨by assumption, rfl⟩

theorem get_email_from_token_ok_of (t : Token) (now : Nat) (e : String)
    (hk : t.key = SECRET_KEY) (ha : t.alg = ALGORITHM)
    (he : now < t.payload.exp) (hs : t.payload.sub = some (some e)) :
    get_email_from_token SECRET_KEY ALGORITHM t now = .ok (some e) := by
  simp only [get_email_from_token,
    decode_ok t SECRET_KEY ALGORITHM now hk ha he, hs]

theorem verify_user_email_eq_flip (t : Token) (db : List User) (now : Nat)
    (u : User) (e : String)
    (hk : t.key = SECRET_KEY) (ha : t.alg = ALGORITHM)
    (he : now < t.payload.exp) (hs : t.payload.sub = some (some e))
    (hfind : db.find? (fun v => v.email == e) = some u)
    (hconf : u.confirmed = false) :
    verify_user_email t db now =
      (.ok ("Email verification successful!", 200),
       db.map fun v =>
         if v.email == e then { v with confirmed := true } else v) := by
  simp only [verify_user_email,
    decode_ok t SECRET_KEY ALGORITHM now hk ha he, hs, hfind, hconf]
  simp

theorem verify_user_email_eq_noop (t : Token) (db : List User) (now : Nat)
    (u : User) (e : String)
    (hk : t.key = SECRET_KEY) (ha : t.alg = ALGORITHM)
    (he : now < t.payload.exp) (hs : t.payload.sub = some (some e))
    (hfind : db.find? (fun v => v.email == e) = some u)
    (hconf : u.confirmed = true) :
    verify_user_email t db now =
      (.ok ("Email verification successful!", 200), db) := by
  simp only [verify_user_email,
    decode_ok t SECRET_KEY ALGORITHM now hk ha he, hs, hfind, hconf]
  simp

theorem confirmed_email_route_eq_flip (t : Token) (db : List User)
    (now : Nat) (u : User) (e : String)
    (hk : t.key = SECRET_KEY) (ha : t.alg = ALGORITHM)
    (he : now < t.payload.exp) (hs : t.payload.sub = some (some e))
    (hfind : get_user_by_email e db = some u)
    (hconf : u.confirmed = false) :
    confirmed_email_route t db now =
      (.ok "Email confirmed",
       db.map fun v =>
         if v.email == e then { v with confirmed := true } else v) := by
  have hc : confirm_email e db =
      .ok (db.map fun v =>
        if v.email == e then { v with confirmed := true } else v) := by
    simp [confirm_email, hfind]
  simp [confirmed_email_route,
    get_email_from_token_ok_of t now e hk ha he hs, hfind, hconf, hc]

theorem confirmed_email_route_eq_noop (t : Token) (db : List User)
    (now : Nat) (u : User) (e : String)
    (hk : t.key = SECRET_KEY) (ha : t.alg = ALGORITHM)
    (he : now < t.payload.exp) (hs : t.payload.sub = some (some e))
    (hfind : get_user_by_email e db = some u)
    (hconf : u.confirmed = true) :
    confirmed_email_route t db now =
      (.ok "Your email is already confirmed", db) := by
  simp only [confirmed_email_route,
    get_email_from_token_ok_of t now e hk ha he hs, hfind, hconf]
  simp

/-- Claim C4: the confirmed flag is monotone under every embedded operation
of the system that can touch the user store (it never flips back from true
for any existing user, taking the spec's email uniqueness as the store
invariant), the first successful confirmation flips it from false to true in
both confirmation paths, and confirming an already-confirmed user is an
idempotent no-op success that performs no write in both paths. -/
theorem C4_confirmed_monotone :
    (∀ user tok (db : List User), (db.map User.email).Nodup →
      ∀ u ∈ db, u.confirmed = true →
      ∀ u' ∈ update_token user tok db, u'.email = u.email →
        u'.confirmed = true) ∧
    (∀ email (db db2 : List User), (db.map User.email).Nodup →
      confirm_email email db = .ok db2 →
      ∀ u ∈ db, u.confirmed = true →
      ∀ u' ∈ db2, u'.email = u.email → u'.confirmed = true) ∧
    (∀ email url (db db2 : List User), (db.map User.email).Nodup →
      update_avatar email url db = .ok db2 →
      ∀ u ∈ db, u.confirmed = true →
      ∀ u' ∈ db2, u'.email = u.email → u'.confirmed = true) ∧
    (∀ uid url (db db2 : List User), (db.map User.email).Nodup →
      update_user_avatar uid url db = .ok db2 →
      ∀ u ∈ db, u.confirmed = true →
      ∀ u' ∈ db2, u'.email = u.email → u'.confirmed = true) ∧
    (∀ (t : Token) (db : List User) (now : Nat),
      (db.map User.email).Nodup →
      ∀ u ∈ db, u.confirmed = true →
      ∀ u' ∈ (verify_user_email t db now).snd, u'.email = u.email →
        u'.confirmed = true) ∧
    (∀ (t : Token) (db : List User) (now : Nat),
      (db.map User.email).Nodup →
      ∀ u ∈ db, u.confirmed = true →
      ∀ u' ∈ (confirmed_email_route t db now).snd, u'.email = u.email →
        u'.confirmed = true) ∧
    (∀ username password (db : List User) (now : Nat),
      (db.map User.email).Nodup →
      ∀ u ∈ db, u.confirmed = true →
      ∀ u' ∈ (login_auth username password db now).snd,
        u'.email = u.email → u'.confirmed = true) ∧
    (∀ username password (db : List User) (now : Nat),
      (db.map User.email).Nodup →
      ∀ u ∈ db, u.confirmed = true →
      ∀ u' ∈ (login_routes username password db now).snd,
        u'.email = u.email → u'.confirmed = true) ∧
    (∀ (body : UserModel) (salt new_id : Nat) (db : List User),
      (db.map User.email).Nodup →
      ∀ u ∈ db, u.confirmed = true →
      ∀ u' ∈ (signup body salt new_id db).snd, u'.email = u.email →
        u'.confirmed = true) ∧
    (∀ (t : Token) (db : List User) (now : Nat) (u : User) (e : String),
      t.key = SECRET_KEY → t.alg = ALGORITHM → now < t.payload.exp →
      t.payload.sub = some (some e) →
      db.find? (fun v => v.email == e) = some u → u.confirmed = false →
      (verify_user_email t db now).fst =
        .ok ("Email verification successful!", 200) ∧
      ∀ u' ∈ (verify_user_email t db now).snd, u'.email = e →
        u'.confirmed = true) ∧
    (∀ (t : Token) (db : List User) (now : Nat) (u : User) (e : String),
      t.key = SECRET_KEY → t.alg = ALGORITHM → now < t.payload.exp →
      t.payload.sub = some (some e) →
      get_user_by_email e db = some u → u.confirmed = false →
      (confirmed_email_route t db now).fst = .ok "Email confirmed" ∧
      ∀ u' ∈ (confirmed_email_route t db now).snd, u'.email = e →
        u'.confirmed = true) ∧
    (∀ (t : Token) (db : List User) (now : Nat) (u : User) (e : String),
      t.key = SECRET_KEY → t.alg = ALGORITHM → now < t.payload.exp →
      t.payload.sub = some (some e) →
      db.find? (fun v => v.email == e) = some u → u.confirmed = true →
      verify_user_email t db now =
        (.ok ("Email verification successful!", 200), db)) ∧
    (∀ (t : Token) (db : List User) (now : Nat) (u : User) (e : String),
      t.key = SECRET_KEY → t.alg = ALGORITHM → now < t.payload.exp →
      t.payload.sub = some (some e) →
      get_user_by_email e db = some u → u.confirmed = true →
      confirmed_email_route t db now =
        (.ok "Your email is already confirmed", db)) := by
  refine ⟨?_, ?_, ?_, ?_, ?_, ?_, ?_, ?_, ?_, ?_, ?_, ?_, ?_⟩
  · intro user tok db hnd u hu huc
    exact update_token_mono user tok db hnd u hu huc
  · intro email db db2 hnd heq u hu huc
    unfold confirm_email at heq
    split at heq
    · cases heq
    · cases heq
      exact mono_confirmed_map _ (confirm_map_email email)
        (confirm_map_keeps email) db hnd u hu huc
  · intro email url db db2 hnd heq u hu huc
    unfold update_avatar at heq
    split at heq
    · cases heq
    · cases heq
      refine mono_confirmed_map _ ?_ ?_ db hnd u hu huc
      · intro v; dsimp only; split <;> rfl
      · intro v h; dsimp only; split
        · exact h
        · exact h
  · intro uid url db db2 hnd heq u hu huc
    unfold update_user_avatar at heq
    split at heq
    · cases heq
      refine mono_confirmed_map _ ?_ ?_ db hnd u hu huc
      · intro v; dsimp only; split <;> rfl
      · intro v h; dsimp only; split
        · exact h
        · exact h
    · cases heq
  · intro t db now hnd u hu huc
    rcases verify_user_email_snd t db now with h | ⟨e, h⟩
    · rw [h]; exact mono_confirmed_id db hnd u hu huc
    · rw [h]
      exact mono_confirmed_map _ (confirm_map_email e)
        (confirm_map_keeps e) db hnd u hu huc
  · intro t db now hnd u hu huc
    rcases confirmed_email_route_snd t db now with h | ⟨e, h⟩
    · rw [h]; exact mono_confirmed_id db hnd u hu huc
    · rw [h]
      exact mono_confirmed_map _ (confirm_map_email e)
        (confirm_map_keeps e) db hnd u hu huc
  · intro username password db now hnd u hu huc
    rcases login_auth_snd username password db now with h | ⟨user, tok, h⟩
    · rw [h]; exact mono_confirmed_id db hnd u hu huc
    · rw [h]; exact update_token_mono user tok db hnd u hu huc
  · intro username password db now hnd u hu huc
    rw [login_routes_snd username password db now]
    exact mono_confirmed_id db hnd u hu huc
  · intro body salt new_id db hnd u hu huc
    rcases signup_snd body salt new_id db with h | ⟨hnone, h⟩
    · rw [h]; exact mono_confirmed_id db hnd u hu huc
    · rw [h]
      intro u' hu' he
      rcases List.mem_append.mp hu' with hin | hnew
      · exact mono_confirmed_id db hnd u hu huc u' hin he
      · rcases List.mem_singleton.mp hnew with rfl
        exfalso
        have : ¬ (u.email == body.email) = true := by
          unfold get_user_by_email at hnone
          exact List.find?_eq_none.mp hnone u hu
        exact this (by simp [← he])
  · intro t db now u e hk ha he hs hfind hconf
    rw [verify_user_email_eq_flip t db now u e hk ha he hs hfind hconf]
    exact ⟨rfl, confirm_map_confirms e db⟩
  · intro t db now u e hk ha he hs hfind hconf
    rw [confirmed_email_route_eq_flip t db now u e hk ha he hs hfind hconf]
    exact ⟨rfl, confirm_map_confirms e db⟩
  · intro t db now u e hk ha he hs hfind hconf
    exact verify_user_email_eq_noop t db now u e hk ha he hs hfind hconf
  · intro t db now u e hk ha he hs hfind hconf
    exact confirmed_email_route_eq_noop t db now u e hk ha he hs hfind hconf

theorem C4_confirmed_monotone_witness :
    (get_user_by_email "a@x.com"
        [⟨1, "alice", "a@x.com", .bcrypt 0 "pw", none, true, none⟩] =
      some ⟨1, "alice", "a@x.com", .bcrypt 0 "pw", none, true, none⟩ ∧
      (⟨1, "alice", "a@x.com", .bcrypt 0 "pw", none, true, none⟩ :
        User).confirmed = true) ∧
    confirmed_email_route
        ⟨⟨some (some "a@x.com"), 1000⟩, SECRET_KEY, ALGORITHM⟩
        [⟨1, "alice", "a@x.com", .bcrypt 0 "pw", none, true, none⟩] 0 =
      (.ok "Your email is already confirmed",
       [⟨1, "alice", "a@x.com", .bcrypt 0 "pw", none, true, none⟩]) :=
  ⟨⟨rfl, rfl⟩,
   C4_confirmed_monotone.2.2.2.2.2.2.2.2.2.2.2.2
     ⟨⟨some (some "a@x.com"), 1000⟩, SECRET_KEY, ALGORITHM⟩
     [⟨1, "alice", "a@x.com", .bcrypt 0 "pw", none, true, none⟩] 0
     ⟨1, "alice", "a@x.com", .bcrypt 0 "pw", none, true, none⟩ "a@x.com"
     rfl rfl (by decide) rfl rfl rfl⟩
